import Mathlib

/-!
Verification development for the voice-command core of the `siri-app-`
repository (`hooks/use-voice-commands.ts` plus the `VoiceButton` component).

The embedding translates the command dispatcher (`executeCommand`), the
command resolver (`processVoiceCommand` with its custom-override table and
built-in multi-locale phrase table), the persistent-listening session
controller (`onerror` / `onend` handlers, restart timers,
`stopPersistentListening`), and the one-shot recording operations
(`startRecording` / `stopRecording` / `toggleRecording`) into executable
Lean definitions, and proves the stated properties about them.

The player-control capability set (`useVideoPlayer`) is not part of this
core; its interface (`play`, `pause`, `seek`, `setVolume`, `setSpeed`,
`toggleFullscreen`, `addBookmark`, `toggleFavorite`, readable `uri`,
`volume`, `player`) is modelled from the specification of the external
collaborator: `setVolume v` makes the readable `volume` equal to `v`,
`toggleFullscreen` flips the fullscreen flag, and so on.
-/

namespace SiriApp

/-- A single call against the external player-control capability set.
One such call is what the dispatcher issues per successful dispatch. -/
inductive PlayerCall where
  | play
  | pause
  | stop
  | seek (seconds : ℚ)
  | setVolume (v : ℚ)
  | setSpeed (v : ℚ)
  | toggleFullscreen
  | addBookmark
  | toggleFavorite
deriving DecidableEq

/-- Modelled from the spec: observable state of the external player
(readable `volume`, playback speed, position, fullscreen flag, bookmarks,
favorite flag). The player itself lives outside this core (§6 of the spec:
player-control capability set); each capability call updates the
corresponding readable attribute. -/
structure PlayerState where
  volume : ℚ
  speed : ℚ
  position : ℚ
  isFullscreen : Bool
  bookmarkCount : Nat
  isFavorite : Bool
deriving DecidableEq

/-- Modelled from the spec: effect of one player-capability call on the
player state. `setVolume v` sets the readable `volume` to `v`;
`toggleFullscreen` flips the fullscreen flag; `seek d` moves the position
by `d` seconds; transport calls do not change these readable attributes. -/
def applyCall (c : PlayerCall) (p : PlayerState) : PlayerState :=
  match c with
  | .play => p
  | .pause => p
  | .stop => p
  | .seek d => { p with position := p.position + d }
  | .setVolume v => { p with volume := v }
  | .setSpeed v => { p with speed := v }
  | .toggleFullscreen => { p with isFullscreen := !p.isFullscreen }
  | .addBookmark => { p with bookmarkCount := p.bookmarkCount + 1 }
  | .toggleFavorite => { p with isFavorite := !p.isFavorite }

/-- The `videoControls` object handed to `executeCommand`: readable `uri`
(媒體 present or not), `player` presence flag, the readable player state,
and a model of which external calls throw when invoked (`throws`). -/
structure VideoControls where
  uri : Option String
  player : Bool
  state : PlayerState
  throws : PlayerCall → Bool

/-- The `actionId` values enumerated by the `switch` of `executeCommand`
(`use-voice-commands.ts` lines 513-586). -/
def enumeratedCommands : List String :=
  ["play", "pause", "stop",
   "forward10", "forward20", "forward30",
   "backward10", "backward20", "backward30",
   "volumeUp", "volumeDown", "volumeMax", "mute", "unmute",
   "speed05", "speed1", "speed10", "speed125", "speed15", "speed2",
   "fullscreen", "exitFullscreen", "bookmark", "favorite"]

/-- The `switch (commandId)` of `executeCommand` (lines 513-586): which
single external call a given `actionId` issues, reading the current
player state where the source reads `videoControls.volume`. The source's
`videoControls.volume || 0` coerces only an undefined volume to 0; the
model keeps `volume` always defined, so the read is the volume itself.
`none` is the `default:` branch (unknown command). -/
def dispatchCall (commandId : String) (vc : VideoControls) : Option PlayerCall :=
  if commandId = "play" then some .play
  else if commandId = "pause" then some .pause
  else if commandId = "stop" then some .stop
  else if commandId = "forward10" then some (.seek 10)
  else if commandId = "forward20" then some (.seek 20)
  else if commandId = "forward30" then some (.seek 30)
  else if commandId = "backward10" then some (.seek (-10))
  else if commandId = "backward20" then some (.seek (-20))
  else if commandId = "backward30" then some (.seek (-30))
  else if commandId = "volumeUp" then some (.setVolume (min 1 (vc.state.volume + 1/10)))
  else if commandId = "volumeDown" then some (.setVolume (max 0 (vc.state.volume - 1/10)))
  else if commandId = "volumeMax" then some (.setVolume 1)
  else if commandId = "mute" then some (.setVolume 0)
  else if commandId = "unmute" then
    some (.setVolume (if vc.state.volume > 0 then vc.state.volume else 1))
  else if commandId = "speed05" then some (.setSpeed (1/2))
  else if commandId = "speed1" then some (.setSpeed 1)
  else if commandId = "speed10" then some (.setSpeed 1)
  else if commandId = "speed125" then some (.setSpeed (5/4))
  else if commandId = "speed15" then some (.setSpeed (3/2))
  else if commandId = "speed2" then some (.setSpeed 2)
  else if commandId = "fullscreen" then some .toggleFullscreen
  else if commandId = "exitFullscreen" then some .toggleFullscreen
  else if commandId = "bookmark" then some .addBookmark
  else if commandId = "favorite" then some .toggleFavorite
  else none

/-- Result of one `executeCommand` invocation: the boolean the function
returns, the list of external player calls it issued, and the controls
object afterwards (its readable state updated by the call that ran). -/
structure ExecResult where
  ok : Bool
  calls : List PlayerCall
  ctrl : VideoControls

/-- `executeCommand` (lines 499-594): refuse when `videoControls.uri` is
unset or `videoControls.player` is unset; refuse on an unknown
`commandId` (the `default:` branch); otherwise issue exactly the one call
selected by the `switch`. The whole body sits in a `try`/`catch` that
converts a thrown external call into the return value `false`, so the
function is total: a throwing call is recorded in `calls` but yields
`ok = false` and leaves the readable state unchanged. -/
def executeCommand (commandId : String) (vc : VideoControls) : ExecResult :=
  if vc.uri.isNone then ⟨false, [], vc⟩
  else if vc.player = false then ⟨false, [], vc⟩
  else
    match dispatchCall commandId vc with
    | none => ⟨false, [], vc⟩
    | some c =>
      if vc.throws c then ⟨false, [c], vc⟩
      else ⟨true, [c], { vc with state := applyCall c vc.state }⟩

/-- Model of JavaScript `String.prototype.toLowerCase` as used here:
character-wise lowering (ASCII letters; the phrase table's non-Latin
phrases are already lowercase). -/
def jsToLower (s : String) : String :=
  String.mk (s.toList.map Char.toLower)

/-- Model of JavaScript `String.prototype.trim`: drop whitespace from both
ends. -/
def jsTrim (s : String) : String :=
  String.mk
    (((s.toList.dropWhile Char.isWhitespace).reverse.dropWhile
        Char.isWhitespace).reverse)

/-- Containment of `sub` as a contiguous run inside `s`, by scanning every
suffix for `sub` as a prefix. -/
def listContains : List Char → List Char → Bool
  | [], sub => sub.isEmpty
  | s@(_ :: tl), sub => sub.isPrefixOf s || listContains tl sub

/-- Model of JavaScript `command.includes(trigger)`: substring
containment, as containment of the character sequence. -/
def jsIncludes (s sub : String) : Bool :=
  listContains s.toList sub.toList

/-- The custom-command overrides: `actionId -> trigger` entries in
insertion order, mirroring `Object.entries(customCommands)` for the
non-integer-like keys this mapping holds. -/
abbrev CustomOverrides := List (String × String)

/-- `saveCustomCommand` (lines 54-58): `{ ...customCommands, [commandId]:
trigger }` replaces the value in place when the key exists, otherwise
appends the new entry at the end. -/
def saveCustomCommand (custom : CustomOverrides) (commandId trigger : String) :
    CustomOverrides :=
  if custom.any (fun p => p.1 = commandId) then
    custom.map (fun p => if p.1 = commandId then (commandId, trigger) else p)
  else
    custom ++ [(commandId, trigger)]

/-- The custom-override scan of `processVoiceCommand` (lines 603-605):
`Object.entries(customCommands).find(([_, trigger]) =>
command.includes(trigger.toLowerCase()))`. -/
def findCustom (custom : CustomOverrides) (command : String) :
    Option (String × String) :=
  custom.find? (fun p => jsIncludes command (jsToLower p.2))

/-- The static built-in phrase table of `processVoiceCommand`
(lines 613-648), in its declared order: every `actionId` with its trigger
phrases across all supported locales. -/
def commandsTable : List (String × List String) :=
  [("play", ["play", "播放", "再生", "reproducir", "jouer", "spielen", "воспроизвести", "تشغيل", "재생", "start"]),
   ("pause", ["pause", "暫停", "一時停止", "pausar", "pause", "pausieren", "пауза", "إيقاف مؤقت", "일시정지"]),
   ("stop", ["stop", "停止", "停止", "parar", "arrêter", "stoppen", "остановить", "توقف", "정지"]),
   ("forward10", ["forward 10", "skip 10", "forward ten", "快轉10秒", "10秒進む", "adelantar 10", "avancer 10", "вперед 10", "تقديم 10", "10초 앞으로"]),
   ("forward20", ["forward 20", "skip 20", "forward twenty", "快轉20秒", "20秒進む", "adelantar 20", "avancer 20", "вперед 20", "تقديم 20", "20초 앞으로"]),
   ("forward30", ["forward 30", "skip 30", "forward thirty", "快轉30秒", "30秒進む", "adelantar 30", "avancer 30", "вперед 30", "تقديم 30", "30초 앞으로"]),
   ("backward10", ["backward 10", "back 10", "rewind 10", "倒轉10秒", "10秒戻る", "retroceder 10", "reculer 10", "назад 10", "تراجع 10", "10초 뒤로"]),
   ("backward20", ["backward 20", "back 20", "rewind 20", "倒轉20秒", "20秒戻る", "retroceder 20", "reculer 20", "назад 20", "تراجع 20", "20초 뒤로"]),
   ("backward30", ["backward 30", "back 30", "rewind 30", "倒轉30秒", "30秒戻る", "retroceder 30", "reculer 30", "назад 30", "تراجع 30", "30초 뒤로"]),
   ("volumeUp", ["volume up", "louder", "increase volume", "音量調高", "音量上げる", "subir volumen", "augmenter volume", "громче", "رفع الصوت", "볼륨 올리기"]),
   ("volumeDown", ["volume down", "quieter", "decrease volume", "音量調低", "音量下げる", "bajar volumen", "baisser volume", "тише", "خفض الصوت", "볼륨 내리기"]),
   ("volumeMax", ["max volume", "volume max", "maximum volume", "音量最大", "最大音量", "volumen máximo", "volume maximum", "максимальная громкость", "أقصى صوت", "최대 볼륨"]),
   ("mute", ["mute", "靜音", "ミュート", "silenciar", "muet", "stumm", "без звука", "كتم الصوت", "음소거"]),
   ("unmute", ["unmute", "解除靜音", "ミュート解除", "activar sonido", "activer son", "звук включить", "إلغاء كتم الصوت", "음소거 해제"]),
   ("speed05", ["0.5 speed", "half speed", "slow", "0.5倍速", "0.5倍速", "0.5 velocidad", "0.5 vitesse", "0.5 скорость", "سرعة 0.5", "0.5배속"]),
   ("speed1", ["normal speed", "1x speed", "1 speed", "regular speed", "正常速度", "通常速度", "velocidad normal", "vitesse normale", "обычная скорость", "السرعة العادية", "정상 속도"]),
   ("speed125", ["1.25 speed", "1.25x speed", "1.25倍速", "1.25倍速", "1.25 velocidad", "1.25 vitesse", "1.25 скорость", "سرعة 1.25", "1.25배속"]),
   ("speed15", ["1.5 speed", "1.5x speed", "fast", "1.5倍速", "1.5倍速", "1.5 velocidad", "1.5 vitesse", "1.5 скорость", "سرعة 1.5", "1.5배속"]),
   ("speed2", ["2 speed", "2x speed", "double speed", "2倍速", "2倍速", "2 velocidad", "2 vitesse", "2 скорость", "سرعة 2", "2배속"]),
   ("fullscreen", ["fullscreen", "full screen", "enter fullscreen", "全螢幕", "フルスクリーン", "pantalla completa", "plein écran", "полный экран", "ملء الشاشة", "전체화면"]),
   ("exitFullscreen", ["exit fullscreen", "leave fullscreen", "離開全螢幕", "フルスクリーン終了", "salir pantalla completa", "quitter plein écran", "выйти из полного экрана", "الخروج من ملء الشاشة", "전체화면 나가기"]),
   ("bookmark", ["bookmark", "add bookmark", "mark", "書籤", "ブックマーク", "marcador", "marque-page", "закладка", "إشارة مرجعية", "북마크"]),
   ("favorite", ["favorite", "add favorite", "like", "最愛", "お気に入り", "favorito", "favori", "избранное", "مفضل", "즐겨찾기"])]

/-- The built-in scan of `processVoiceCommand` (lines 651-655): walk the
table in declared order and return the first `actionId` one of whose
triggers is a substring of the transcript. The active locale is never
consulted: phrases of every locale participate. -/
def findBuiltin (command : String) : Option String :=
  (commandsTable.find?
    (fun p => p.2.any (fun trigger => jsIncludes command (jsToLower trigger)))).map
    (fun p => p.1)

/-- The resolution step of `processVoiceCommand` (lines 596-658): an empty
transcript resolves to nothing (`if (!text) return false`); otherwise the
transcript is lower-cased and trimmed, custom overrides are scanned first,
and only if none matches is the built-in table scanned. -/
def resolveVoiceCommand (custom : CustomOverrides) (text : String) :
    Option String :=
  if text = "" then none
  else
    let command := jsTrim (jsToLower text)
    match findCustom custom command with
    | some p => some p.1
    | none => findBuiltin command

/-- `processVoiceCommand` (lines 596-659): resolve the transcript and hand
the resolved `actionId` to `executeCommand`; an unresolved transcript
returns `false` without touching the player. -/
def processVoiceCommand (custom : CustomOverrides) (text : String)
    (vc : VideoControls) : ExecResult :=
  match resolveVoiceCommand custom text with
  | some commandId => executeCommand commandId vc
  | none => ⟨false, [], vc⟩

/-- The `RecordingState` of the hook (lines 15-22): the observable session
state exposed to the UI. -/
structure RecordingState where
  isRecording : Bool
  isProcessing : Bool
  lastCommand : Option String
  error : Option String
  isListening : Bool
  isPersistentMode : Bool
deriving DecidableEq

/-- The `setState` effect of the persistent recognizer's `onerror` handler
(lines 125-166): `no-speech`, `aborted` and `network` leave the state
untouched (`network` additionally schedules a restart, modelled in
`onError` below); `audio-capture` and `not-allowed` force persistent mode
and listening off and surface an error string; every other code surfaces
an error string and drops `isListening` only. -/
def onErrorState (code : String) (s : RecordingState) : RecordingState :=
  if code = "no-speech" then s
  else if code = "audio-capture" then
    { s with error := some "Microphone access denied or not available",
             isListening := false, isPersistentMode := false }
  else if code = "not-allowed" then
    { s with error := some "Microphone permission denied. Please allow microphone access.",
             isListening := false, isPersistentMode := false }
  else if code = "network" then s
  else if code = "aborted" then s
  else
    { s with error := some ("Speech recognition error: " ++ code),
             isListening := false }

/-- A pending `restartTimeoutRef` timer. The `onend` handler's timer
closure captures `prev.isPersistentMode` at scheduling time
(`endRestart`); the network-error timer re-reads the state through
`setState` when it fires (`netRestart`). -/
inductive PendingRestart where
  | endRestart (capturedPersistent : Bool)
  | netRestart
deriving DecidableEq

/-- The persistent-session machinery of the hook: the observable state,
whether `persistentRecognitionRef.current` is non-null, and the single
pending restart timer held by `restartTimeoutRef.current` (if any). -/
structure SessState where
  state : RecordingState
  persistentRef : Bool
  restartTimeout : Option PendingRestart
deriving DecidableEq

/-- The `onerror` handler as a whole (lines 125-183): apply the state
effect, and for `network` clear any pending restart timer and schedule the
3000ms restart. -/
def onError (code : String) (s : SessState) : SessState :=
  let s1 : SessState := { s with state := onErrorState code s.state }
  if code = "network" then { s1 with restartTimeout := some .netRestart }
  else s1

/-- The `onend` handler (lines 185-208): clear any pending restart timer;
if still in persistent mode with a live recognition reference, schedule
the 500ms restart whose closure captures the current `isPersistentMode`. -/
def onEnd (s : SessState) : SessState :=
  if s.state.isPersistentMode && s.persistentRef then
    { s with restartTimeout := some (.endRestart s.state.isPersistentMode) }
  else
    { s with restartTimeout := none }

/-- `stopPersistentListening` (lines 245-274): clear any pending restart
timer, stop and null out the recognition reference (its `stop()` call is
wrapped in `try`/`catch`, so this never throws), then force
`isListening` and `isPersistentMode` off and clear the error string.
`isProcessing`, `isRecording` and `lastCommand` are not touched. -/
def stopPersistentListening (s : SessState) : SessState :=
  { state :=
      { s.state with
        isListening := false, isPersistentMode := false, error := none },
    persistentRef := false,
    restartTimeout := none }

/-- Firing of the pending restart timer, if any. The Bool reports whether
`startPersistentListening()` was invoked. The `onend` timer consults the
`prev.isPersistentMode` captured when it was scheduled; the network timer
consults the state current at firing time. A fired (or absent) timer
starts nothing further. -/
def fireRestartTimer (s : SessState) : SessState × Bool :=
  match s.restartTimeout with
  | none => (s, false)
  | some (.endRestart captured) =>
      ({ s with restartTimeout := none }, captured)
  | some .netRestart =>
      ({ s with restartTimeout := none }, s.state.isPersistentMode)

/-- The one-shot recording machinery of the hook: the observable state,
whether `recognitionRef.current` is non-null, and whether
`mediaRecorderRef.current` is non-null. -/
structure OneShot where
  state : RecordingState
  recognitionRef : Bool
  mediaRecorderRef : Bool
deriving DecidableEq

/-- Outcome of the external speech-to-text request made by the
`MediaRecorder` branch of `stopRecording`: a transcript, or any failure
(non-2xx response, malformed JSON, thrown fetch) which the `catch`
converts into an error string. -/
inductive SttOutcome where
  | ok (text : String)
  | fail
deriving DecidableEq

/-- `startRecording` (lines 301-370), success and failure paths: with the
platform speech-recognition API available, start a recognizer and set
`recognitionRef`; otherwise, with capture available, start a
`MediaRecorder`; either way mark `isRecording` and clear the error. If
capture is unavailable the `catch` surfaces `t('voice.error')` and starts
nothing. The Bool reports whether a capture start occurred. -/
def startRecording (speechApiAvailable captureAvailable : Bool)
    (s : OneShot) : OneShot × Bool :=
  if speechApiAvailable then
    ({ s with recognitionRef := true,
              state := { s.state with isRecording := true, error := none } }, true)
  else if captureAvailable then
    ({ s with mediaRecorderRef := true,
              state := { s.state with isRecording := true, error := none } }, true)
  else
    ({ s with state := { s.state with error := some "voice.error" } }, false)

/-- `stopRecording` (lines 372-462): first set `isRecording := false` and
`isProcessing := true`; if a Web Speech recognizer is active, stop it and
clear `isProcessing` (result arrives via `onresult`); else if a
`MediaRecorder` is active, stop it and send the audio to the
transcription service, whose outcome either sets `lastCommand` to the
lower-cased trimmed transcript or surfaces `t('voice.error')`; with no
session at all, clear `isProcessing` and return `null`. The entire body
is inside `try`/`catch`, so the operation never throws. -/
def stopRecording (stt : SttOutcome) (s : OneShot) :
    OneShot × Option String :=
  let s1 : OneShot :=
    { s with state := { s.state with isRecording := false, isProcessing := true } }
  if s1.recognitionRef then
    ({ s1 with recognitionRef := false,
               state := { s1.state with isProcessing := false } }, none)
  else if s1.mediaRecorderRef then
    match stt with
    | .ok text =>
        let t := jsTrim (jsToLower text)
        ({ s1 with
           mediaRecorderRef := false,
           state := { s1.state with
                      isProcessing := false, lastCommand := some t,
                      error := none } }, some t)
    | .fail =>
        ({ s1 with
           mediaRecorderRef := false,
           state := { s1.state with
                      isProcessing := false,
                      error := some "voice.error" } }, none)
  else
    ({ s1 with state := { s1.state with isProcessing := false } }, none)

/-- `toggleRecording` (lines 464-471): stop when `isRecording`, otherwise
start. The function consults only `state.isRecording`; it never checks
`isPersistentMode`. The Bool reports whether a one-shot capture start
occurred. -/
def toggleRecording (speechApiAvailable captureAvailable : Bool)
    (stt : SttOutcome) (s : OneShot) : OneShot × Bool :=
  if s.state.isRecording then ((stopRecording stt s).1, false)
  else startRecording speechApiAvailable captureAvailable s

/-- The `VoiceButton` press (component `VoiceButton`): the button invokes
`toggleRecording` via `onPress`, but carries
`disabled={isProcessing || isPersistentMode}`, so a press in persistent
mode (or while processing) does nothing. -/
def voiceButtonPress (speechApiAvailable captureAvailable : Bool)
    (stt : SttOutcome) (s : OneShot) : OneShot × Bool :=
  if s.state.isProcessing || s.state.isPersistentMode then (s, false)
  else toggleRecording speechApiAvailable captureAvailable stt s

/-! ### Concrete fixtures used by witnesses and counterexamples -/

/-- A player state with volume ½, normal speed, not fullscreen. -/
def samplePlayer : PlayerState :=
  { volume := 1/2, speed := 1, position := 0, isFullscreen := false,
    bookmarkCount := 0, isFavorite := false }

/-- Controls with media loaded, a live player, and no throwing calls. -/
def vcSample : VideoControls :=
  { uri := some "video.mp4", player := true, state := samplePlayer,
    throws := fun _ => false }

/-- Controls with no media loaded. -/
def vcNoUri : VideoControls := { vcSample with uri := none }

/-- Controls with no player capability. -/
def vcNoPlayer : VideoControls := { vcSample with player := false }

/-- Controls whose every external call throws. -/
def vcThrowing : VideoControls := { vcSample with throws := fun _ => true }

/-! ### Helper lemmas -/

/-- `find?` returns the pivot element when nothing before it satisfies the
predicate and the pivot does. -/
theorem find?_append_first {α : Type} (p : α → Bool) (pre post : List α)
    (a : α) (hpre : ∀ x ∈ pre, p x = false) (ha : p a = true) :
    (pre ++ a :: post).find? p = some a := by
  induction pre with
  | nil => simp [List.find?_cons, ha]
  | cons b bs ih =>
    have hb : p b = false := hpre b (List.mem_cons_self b bs)
    simp only [List.cons_append, List.find?_cons, hb]
    exact ih (fun x hx => hpre x (List.mem_cons_of_mem b hx))

/-- An `actionId` outside the enumerated set falls into the `default:`
branch of the dispatcher's `switch`. -/
theorem dispatchCall_eq_none_of_not_enumerated (commandId : String)
    (vc : VideoControls) (h : commandId ∉ enumeratedCommands) :
    dispatchCall commandId vc = none := by
  simp only [enumeratedCommands, List.mem_cons, List.not_mem_nil, or_false,
    not_or] at h
  obtain ⟨h1, h2, h3, h4, h5, h6, h7, h8, h9, h10, h11, h12, h13, h14, h15,
    h16, h17, h18, h19, h20, h21, h22, h23, h24⟩ := h
  simp [dispatchCall, h1, h2, h3, h4, h5, h6, h7, h8, h9, h10, h11, h12,
    h13, h14, h15, h16, h17, h18, h19, h20, h21, h22, h23, h24]

/-! ### C1 — mute / unmute -/

/-- C1 counterexample: with pre-mute volume ½ (> 0), dispatching `mute`
then `unmute` ends at volume 1, not at the pre-mute volume ½ — `unmute`
reads the *current* volume (0 after mute), not a saved pre-mute volume, so
the claimed restoration does not happen. -/
theorem unmute_restores_premute_counterexample :
    vcSample.state.volume = 1/2 ∧ (0 : ℚ) < vcSample.state.volume ∧
    (executeCommand "unmute"
      (executeCommand "mute" vcSample).ctrl).ctrl.state.volume = 1 ∧
    (executeCommand "unmute"
      (executeCommand "mute" vcSample).ctrl).ctrl.state.volume ≠
      vcSample.state.volume := by
  have hfinal : (executeCommand "unmute"
      (executeCommand "mute" vcSample).ctrl).ctrl.state.volume = 1 := by
    decide
  refine ⟨rfl, by norm_num [vcSample, samplePlayer], hfinal, ?_⟩
  rw [hfinal]
  norm_num [vcSample, samplePlayer]

/-- C1 (amended): `mute` sets the volume to 0; `unmute` dispatched
afterwards always calls `setVolume 1`, whatever the pre-mute volume was,
because it consults the current volume (0 after mute) and defaults to 1
exactly when that current volume is 0. -/
theorem unmute_after_mute_defaults_to_one (vc : VideoControls)
    (hu : vc.uri.isNone = false) (hp : vc.player = true)
    (h0 : vc.throws (.setVolume 0) = false)
    (h1 : vc.throws (.setVolume 1) = false) :
    (executeCommand "mute" vc).ctrl.state.volume = 0 ∧
    (executeCommand "unmute" (executeCommand "mute" vc).ctrl).calls =
      [.setVolume 1] ∧
    (executeCommand "unmute"
      (executeCommand "mute" vc).ctrl).ctrl.state.volume = 1 := by
  have hmute : executeCommand "mute" vc =
      ⟨true, [.setVolume 0],
        { vc with state := { vc.state with volume := 0 } }⟩ := by
    simp [executeCommand, dispatchCall, hu, hp, h0, applyCall]
  rw [hmute]
  refine ⟨rfl, ?_, ?_⟩ <;>
    simp [executeCommand, dispatchCall, hu, hp, h1, applyCall]

/-- Witness for the amended C1 theorem at the concrete controls with
volume ½. -/
theorem unmute_after_mute_defaults_to_one_witness :
    (executeCommand "mute" vcSample).ctrl.state.volume = 0 ∧
    (executeCommand "unmute" (executeCommand "mute" vcSample).ctrl).calls =
      [.setVolume 1] ∧
    (executeCommand "unmute"
      (executeCommand "mute" vcSample).ctrl).ctrl.state.volume = 1 :=
  unmute_after_mute_defaults_to_one vcSample rfl rfl rfl rfl

/-! ### C10 — fullscreen / exitFullscreen alias -/

/-- C10: `fullscreen` and `exitFullscreen` dispatch to the identical call
`toggleFullscreen` — aliases, not inverses — so `exitFullscreen` while not
in fullscreen enters fullscreen, and dispatching either twice returns the
fullscreen flag to its initial value. -/
theorem fullscreen_exitFullscreen_alias (vc : VideoControls)
    (hu : vc.uri.isNone = false) (hp : vc.player = true)
    (ht : vc.throws .toggleFullscreen = false) :
    dispatchCall "fullscreen" vc = some .toggleFullscreen ∧
    dispatchCall "exitFullscreen" vc = some .toggleFullscreen ∧
    (vc.state.isFullscreen = false →
      (executeCommand "exitFullscreen" vc).ctrl.state.isFullscreen = true) ∧
    (executeCommand "exitFullscreen"
      (executeCommand "exitFullscreen" vc).ctrl).ctrl.state.isFullscreen =
      vc.state.isFullscreen ∧
    (executeCommand "fullscreen"
      (executeCommand "fullscreen" vc).ctrl).ctrl.state.isFullscreen =
      vc.state.isFullscreen := by
  refine ⟨rfl, rfl, ?_, ?_, ?_⟩ <;>
    simp [executeCommand, dispatchCall, hu, hp, ht, applyCall]

/-- Witness for C10 at the concrete non-fullscreen controls. -/
theorem fullscreen_exitFullscreen_alias_witness :
    dispatchCall "fullscreen" vcSample = some .toggleFullscreen ∧
    dispatchCall "exitFullscreen" vcSample = some .toggleFullscreen ∧
    (vcSample.state.isFullscreen = false →
      (executeCommand "exitFullscreen" vcSample).ctrl.state.isFullscreen =
        true) ∧
    (executeCommand "exitFullscreen"
      (executeCommand "exitFullscreen" vcSample).ctrl).ctrl.state.isFullscreen =
      vcSample.state.isFullscreen ∧
    (executeCommand "fullscreen"
      (executeCommand "fullscreen" vcSample).ctrl).ctrl.state.isFullscreen =
      vcSample.state.isFullscreen :=
  fullscreen_exitFullscreen_alias vcSample rfl rfl rfl

/-! ### C7 — dispatch refusal, single call, exception containment -/

/-- C7: `executeCommand` returns `false` with zero player calls when the
media `uri` is unset, when the `player` capability is unset, or when the
`actionId` is outside the enumerated command set; a successful dispatch
issues exactly one external call; and a throwing external call is caught
(the call happened, the result is the boolean `false`) — the function is
total, so no exception reaches the caller. -/
theorem executeCommand_refusal_and_single_call (commandId : String)
    (vc : VideoControls) :
    (vc.uri = none → (executeCommand commandId vc).ok = false ∧
      (executeCommand commandId vc).calls = []) ∧
    (vc.player = false → (executeCommand commandId vc).ok = false ∧
      (executeCommand commandId vc).calls = []) ∧
    (commandId ∉ enumeratedCommands →
      (executeCommand commandId vc).ok = false ∧
      (executeCommand commandId vc).calls = []) ∧
    ((executeCommand commandId vc).ok = true →
      (executeCommand commandId vc).calls.length = 1) ∧
    (∀ c : PlayerCall, vc.uri.isNone = false → vc.player = true →
      dispatchCall commandId vc = some c → vc.throws c = true →
      (executeCommand commandId vc).ok = false ∧
      (executeCommand commandId vc).calls = [c]) := by
  by_cases hu : vc.uri.isNone
  · simp [executeCommand, hu]
  · have hu2 : vc.uri.isNone = false := by
      cases h : vc.uri.isNone
      · rfl
      · exact absurd h hu
    have hu' : ¬ vc.uri = none := by
      simpa [Option.isNone_iff_eq_none] using hu
    by_cases hp : vc.player
    · cases hd : dispatchCall commandId vc with
      | none =>
        simp only [executeCommand, hu2, hp]
        simp [hd, hu']
      | some c =>
        have hmem : ¬ commandId ∉ enumeratedCommands := fun h => by
          rw [dispatchCall_eq_none_of_not_enumerated commandId vc h] at hd
          exact Option.noConfusion hd
        by_cases hth : vc.throws c
        · simp only [executeCommand, hu2, hp]
          simp [hd, hth, hmem, hu']
        · simp only [executeCommand, hu2, hp]
          simp [hd, hth, hmem, hu']
    · have hp' : vc.player = false := by
        cases h : vc.player
        · rfl
        · exact absurd h hp
      simp [executeCommand, hu2, hp', hu']

/-- Witness for C7: each refusal case, the single-call case, and the
caught-exception case at concrete inputs. -/
theorem executeCommand_refusal_and_single_call_witness :
    ((executeCommand "play" vcNoUri).ok = false ∧
      (executeCommand "play" vcNoUri).calls = []) ∧
    ((executeCommand "play" vcNoPlayer).ok = false ∧
      (executeCommand "play" vcNoPlayer).calls = []) ∧
    ((executeCommand "launchMissiles" vcSample).ok = false ∧
      (executeCommand "launchMissiles" vcSample).calls = []) ∧
    (executeCommand "play" vcSample).calls.length = 1 ∧
    ((executeCommand "play" vcThrowing).ok = false ∧
      (executeCommand "play" vcThrowing).calls = [.play]) :=
  ⟨(executeCommand_refusal_and_single_call "play" vcNoUri).1 rfl,
   (executeCommand_refusal_and_single_call "play" vcNoPlayer).2.1 rfl,
   (executeCommand_refusal_and_single_call "launchMissiles" vcSample).2.2.1
     (by decide),
   (executeCommand_refusal_and_single_call "play" vcSample).2.2.2.1 rfl,
   (executeCommand_refusal_and_single_call "play" vcThrowing).2.2.2.2 .play
     rfl rfl rfl rfl⟩

/-! ### C3 — custom overrides take precedence -/

/-- C3: if some override phrase (matched case-insensitively as a
substring, in insertion order of the overrides mapping) occurs in the
transcript, resolution returns the `actionId` of the first such override —
whatever the built-in phrase table would have said: the conclusion holds
for every trigger, including triggers that are themselves built-in phrases
of other actions, because the built-in scan is only reached when no
override matches. -/
theorem custom_override_precedence (pre post : CustomOverrides)
    (commandId trigger text : String)
    (htext : ¬ text = "")
    (hpre : ∀ q ∈ pre,
      jsIncludes (jsTrim (jsToLower text)) (jsToLower q.2) = false)
    (hmatch : jsIncludes (jsTrim (jsToLower text)) (jsToLower trigger) = true) :
    resolveVoiceCommand (pre ++ (commandId, trigger) :: post) text =
      some commandId := by
  have hfind := find?_append_first
    (fun p => jsIncludes (jsTrim (jsToLower text)) (jsToLower p.2))
    pre post (commandId, trigger) hpre hmatch
  unfold resolveVoiceCommand findCustom
  rw [if_neg htext]
  simp [hfind]

/-- Witness for C3: the override `bookmark -> "play"` captures the
transcript "play movie" even though "play" is also the first built-in
phrase of the `play` action, and an earlier non-matching override is
skipped. -/
theorem custom_override_precedence_witness :
    resolveVoiceCommand [("stop", "quiet"), ("bookmark", "play")]
      "play movie" = some "bookmark" :=
  custom_override_precedence [("stop", "quiet")] [] "bookmark" "play"
    "play movie" (by decide) (by decide) (by decide)

/-! ### C4 — built-in table scan in declared order, locale-blind -/

/-- C4: with no matching custom override, a transcript containing a
declared trigger phrase of an action — when no phrase of an
earlier-declared action also matches — resolves to that action. The scan
takes the table in its fixed declared order and never consults the active
locale: the theorem quantifies over any row of `commandsTable`, whatever
locale its phrases belong to, and `resolveVoiceCommand` takes no locale
argument at all, mirroring the source. -/
theorem builtin_table_first_match (custom : CustomOverrides)
    (text actionId : String) (phrases : List String)
    (preT postT : List (String × List String))
    (htext : ¬ text = "")
    (hcustom : findCustom custom (jsTrim (jsToLower text)) = none)
    (htable : commandsTable = preT ++ (actionId, phrases) :: postT)
    (hpre : ∀ q ∈ preT,
      (q.2.any fun trigger =>
        jsIncludes (jsTrim (jsToLower text)) (jsToLower trigger)) = false)
    (hmatch : (phrases.any fun trigger =>
        jsIncludes (jsTrim (jsToLower text)) (jsToLower trigger)) = true) :
    resolveVoiceCommand custom text = some actionId := by
  have hfind := find?_append_first
    (fun p : String × List String => p.2.any fun trigger =>
      jsIncludes (jsTrim (jsToLower text)) (jsToLower trigger))
    preT postT (actionId, phrases) hpre hmatch
  unfold resolveVoiceCommand
  rw [if_neg htext]
  simp only [hcustom, findBuiltin, htable, hfind]
  rfl

/-- Witness for C4: the transcript "play" resolves to the first table row
`play`; and (directly evaluated) the Chinese transcript 音量調高 resolves
to `volumeUp` although no locale was selected. -/
theorem builtin_table_first_match_witness :
    resolveVoiceCommand [] "play" = some "play" ∧
    resolveVoiceCommand [] "音量調高" = some "volumeUp" :=
  ⟨builtin_table_first_match [] "play" "play"
      ["play", "播放", "再生", "reproducir", "jouer", "spielen",
       "воспроизвести", "تشغيل", "재생", "start"]
      [] (commandsTable.drop 1) (by decide) rfl rfl (by decide) (by decide),
   by decide⟩

/-! ### C9 — the unknown-actionId defensive branch is reachable -/

/-- The overrides mapping after saving an override whose `actionId` is
outside the enumerated command set. -/
def savedCustoms : CustomOverrides :=
  saveCustomCommand [] "myCustomAction" "xyz"

/-- C9: `saveCustomCommand` accepts an arbitrary `actionId`; a transcript
containing its trigger resolves to that `actionId`, and
`processVoiceCommand` then returns `false` through `executeCommand`'s
`default:` branch with zero player calls — the defensive branch is
reachable from the public interface. -/
theorem unknown_actionId_reachable :
    savedCustoms = [("myCustomAction", "xyz")] ∧
    "myCustomAction" ∉ enumeratedCommands ∧
    resolveVoiceCommand savedCustoms "say xyz please" =
      some "myCustomAction" ∧
    (processVoiceCommand savedCustoms "say xyz please" vcSample).ok =
      false ∧
    (processVoiceCommand savedCustoms "say xyz please" vcSample).calls =
      [] := by
  decide

/-! ### Session fixtures -/

/-- The initial observable state of the hook (lines 26-31). -/
def idleState : RecordingState :=
  { isRecording := false, isProcessing := false, lastCommand := none,
    error := none, isListening := false, isPersistentMode := false }

/-- One-shot machinery while persistent mode is active and no one-shot
session exists. -/
def persistentOneShot : OneShot :=
  { state := { idleState with isListening := true, isPersistentMode := true },
    recognitionRef := false, mediaRecorderRef := false }

/-- A live persistent session (listening, recognition reference held). -/
def listeningSession : SessState :=
  { state := { idleState with isListening := true, isPersistentMode := true },
    persistentRef := true, restartTimeout := none }

/-- No session of any kind, but a leftover error string and a processing
flag still set. -/
def erroredIdleSession : SessState :=
  { state := { idleState with
               isProcessing := true,
               error := some "Speech recognition error: whatever" },
    persistentRef := false, restartTimeout := none }

/-- One-shot machinery with no live session and the idle state. -/
def idleOneShot : OneShot :=
  { state := idleState, recognitionRef := false, mediaRecorderRef := false }

/-! ### C2 — one-shot recording versus persistent mode -/

/-- C2 counterexample: with `isPersistentMode = true` and no recording in
progress, calling `toggleRecording()` itself does start a one-shot
session and changes the observable state — the function never consults
`isPersistentMode`. -/
theorem toggleRecording_persistent_counterexample :
    persistentOneShot.state.isPersistentMode = true ∧
    persistentOneShot.state.isRecording = false ∧
    (toggleRecording true true .fail persistentOneShot).2 = true ∧
    (toggleRecording true true .fail
      persistentOneShot).1.state.isRecording = true ∧
    (toggleRecording true true .fail persistentOneShot).1 ≠
      persistentOneShot := by
  decide

/-- C2 (amended): the mutual exclusion is enforced one level up, at the
`VoiceButton`: the button that invokes `toggleRecording` carries
`disabled={isProcessing || isPersistentMode}`, so a button press while
persistent mode is active leaves the state unchanged and starts no
recognizer or media recorder. `toggleRecording` itself, called directly
while `isPersistentMode = true` and not recording, does start a one-shot
session (see the counterexample). -/
theorem voiceButton_persistent_mutual_exclusion
    (speechApiAvailable captureAvailable : Bool) (stt : SttOutcome)
    (s : OneShot) (h : s.state.isPersistentMode = true) :
    voiceButtonPress speechApiAvailable captureAvailable stt s =
      (s, false) := by
  simp [voiceButtonPress, h]

/-- Witness for the amended C2 theorem at a concrete persistent-mode
state. -/
theorem voiceButton_persistent_mutual_exclusion_witness :
    voiceButtonPress true true .fail persistentOneShot =
      (persistentOneShot, false) :=
  voiceButton_persistent_mutual_exclusion true true .fail
    persistentOneShot rfl

/-! ### C5 — persistent-session error classification -/

/-- C5 counterexample: `network` is neither a filtered non-event in the
claim's list nor fatal, so the claim's "any other error code sets an
error string and drops `isListening`" covers it — but the code leaves the
state entirely unchanged on `network` (it schedules a silent restart
instead): no error string is set and `isListening` stays `true`. -/
theorem onError_network_counterexample :
    (onError "network" listeningSession).state.error = none ∧
    (onError "network" listeningSession).state.isListening = true ∧
    (onError "network" listeningSession).state =
      listeningSession.state := by
  decide

/-- C5 (amended): `no-speech` and `aborted` change nothing and surface no
error; `network` also changes the observable state in no way — it only
schedules the 3000ms restart timer; `audio-capture` and `not-allowed`
(permission denied) force both `isPersistentMode` and `isListening` off
and surface a human-readable error string; every *remaining* code
surfaces an error string and drops `isListening` while leaving
`isPersistentMode` unchanged. -/
theorem onError_classification (s : RecordingState) (code : String)
    (hother : code ∉
      ["no-speech", "audio-capture", "not-allowed", "network", "aborted"]) :
    onErrorState "no-speech" s = s ∧
    onErrorState "aborted" s = s ∧
    onErrorState "network" s = s ∧
    ((onErrorState "audio-capture" s).isPersistentMode = false ∧
     (onErrorState "audio-capture" s).isListening = false ∧
     (onErrorState "audio-capture" s).error =
       some "Microphone access denied or not available") ∧
    ((onErrorState "not-allowed" s).isPersistentMode = false ∧
     (onErrorState "not-allowed" s).isListening = false ∧
     (onErrorState "not-allowed" s).error =
       some "Microphone permission denied. Please allow microphone access.") ∧
    ((onErrorState code s).error =
       some ("Speech recognition error: " ++ code) ∧
     (onErrorState code s).isListening = false ∧
     (onErrorState code s).isPersistentMode = s.isPersistentMode) ∧
    (∀ t : SessState, (onError "network" t).restartTimeout =
       some .netRestart ∧ (onError "network" t).state = t.state) := by
  simp only [List.mem_cons, List.not_mem_nil, or_false, not_or] at hother
  obtain ⟨h1, h2, h3, h4, h5⟩ := hother
  refine ⟨?_, ?_, ?_, ?_, ?_, ?_, ?_⟩
  · simp [onErrorState]
  · simp [onErrorState]
  · simp [onErrorState]
  · simp [onErrorState]
  · simp [onErrorState]
  · simp [onErrorState, h1, h2, h3, h4, h5]
  · intro t
    exact ⟨rfl, by simp [onError, onErrorState]⟩

/-- Witness for the amended C5 theorem at a concrete unlisted error
code. -/
theorem onError_classification_witness :
    (onErrorState "service-not-allowed" idleState).error =
      some ("Speech recognition error: " ++ "service-not-allowed") ∧
    (onErrorState "service-not-allowed" idleState).isListening = false :=
  ⟨((onError_classification idleState "service-not-allowed"
      (by decide)).2.2.2.2.2.1).1,
   ((onError_classification idleState "service-not-allowed"
      (by decide)).2.2.2.2.2.1).2.1⟩

/-! ### C6 — stop cancels pending restart timers -/

/-- C6: `stopPersistentListening` clears any pending restart timer (both
the 500ms natural-end timer and the 3000ms network timer live in the same
`restartTimeoutRef` slot), so a timer firing after an explicit stop is a
no-op: the state is untouched and `startPersistentListening` is not
invoked. -/
theorem stop_cancels_restart_timer (s : SessState) :
    (stopPersistentListening s).restartTimeout = none ∧
    fireRestartTimer (stopPersistentListening s) =
      (stopPersistentListening s, false) :=
  ⟨rfl, rfl⟩

/-! ### C8 — stop on an idle session -/

/-- C8 counterexample: with no session active but a leftover error string
and `isProcessing = true`, `stopPersistentListening` is *not* a no-op
modulo `isProcessing`: it clears the error string and leaves
`isProcessing` untouched. -/
theorem stop_idle_noop_counterexample :
    (stopPersistentListening erroredIdleSession).state ≠
      { erroredIdleSession.state with isProcessing := false } ∧
    (stopPersistentListening erroredIdleSession).state.error = none ∧
    erroredIdleSession.state.error ≠ none ∧
    (stopPersistentListening erroredIdleSession).state.isProcessing =
      true := by
  decide

/-- C8 (amended): neither stop ever throws (both are total; the source
wraps the underlying `stop()` calls in `try`/`catch`). `stopRecording`
with no one-shot session is a no-op except that it clears `isProcessing`
(and forces the already-false `isRecording` to false) and returns `null`.
`stopPersistentListening` does not touch `isProcessing`, `isRecording` or
`lastCommand`; it forces `isListening` and `isPersistentMode` off and
clears the error string. Both stops are idempotent: a second consecutive
stop leaves the state exactly as the first left it. -/
theorem stop_idle_behaviour (s : OneShot) (t : SessState)
    (stt : SttOutcome)
    (hrec : s.recognitionRef = false) (hmed : s.mediaRecorderRef = false) :
    (stopRecording stt s).1.state =
      { s.state with isRecording := false, isProcessing := false } ∧
    (stopRecording stt s).2 = none ∧
    (stopRecording stt (stopRecording stt s).1).1 =
      (stopRecording stt s).1 ∧
    (stopPersistentListening t).state.isProcessing =
      t.state.isProcessing ∧
    (stopPersistentListening t).state.isRecording = t.state.isRecording ∧
    (stopPersistentListening t).state.lastCommand = t.state.lastCommand ∧
    (stopPersistentListening t).state.error = none ∧
    (stopPersistentListening t).state.isListening = false ∧
    (stopPersistentListening t).state.isPersistentMode = false ∧
    stopPersistentListening (stopPersistentListening t) =
      stopPersistentListening t := by
  refine ⟨?_, ?_, ?_, rfl, rfl, rfl, rfl, rfl, rfl, rfl⟩ <;>
    simp [stopRecording, hrec, hmed]

/-- Witness for the amended C8 theorem at concrete idle states. -/
theorem stop_idle_behaviour_witness :
    (stopRecording .fail idleOneShot).1.state =
      { idleOneShot.state with isRecording := false,
                               isProcessing := false } ∧
    (stopPersistentListening erroredIdleSession).state.isProcessing =
      erroredIdleSession.state.isProcessing :=
  ⟨(stop_idle_behaviour idleOneShot erroredIdleSession .fail rfl rfl).1,
   (stop_idle_behaviour idleOneShot erroredIdleSession .fail
      rfl rfl).2.2.2.1⟩

end SiriApp
